import Mathlib

/-!
Verification of the cubism-rs model data/ownership layer and its
update/animation pipeline.

Machine floats (`f32`/`f64`) are embedded as `Rat`; native-core routines
(the closed-source Live2D evaluation functions reached through FFI) are
modelled from the spec as explicit parameters, while everything else is
translated from the Rust sources of the repository.
-/

namespace Cubism

/-- The dynamic flags of a model's drawable (`DynamicFlags` bitflags in
`cubism-core/src/lib.rs`), one `Bool` per bit. -/
structure DynamicFlags where
  isVisible : Bool
  visibilityChanged : Bool
  opacityChanged : Bool
  drawOrderChanged : Bool
  renderOrderChanged : Bool
  vertexPositionsChanged : Bool
deriving DecidableEq

/-- Modelled from the spec: clearing the five per-drawable dynamic change
flags (the `...Changed` bits), as performed by the native
`csmResetDrawableDynamicFlags` routine. -/
def DynamicFlags.resetChanged (f : DynamicFlags) : DynamicFlags :=
  { f with
    visibilityChanged := false
    opacityChanged := false
    drawOrderChanged := false
    renderOrderChanged := false
    vertexPositionsChanged := false }

/-- Modelled from the spec: the derived-on-update per-drawable state held in
the model's native working buffer (render/draw order, opacity, vertex
positions, dynamic flags). -/
structure DrawableState where
  renderOrder : Int
  drawOrder : Int
  opacity : Rat
  vertexPositions : List (Rat × Rat)
  dynamicFlags : DynamicFlags
deriving DecidableEq

/-- The immutable revived moc data (`Moc` in `cubism-core/src/moc.rs`):
id tables, parameter ranges, per-drawable mask lists, and (modelled from the
spec) the freshly initialized drawable state that
`csmInitializeModelInPlace` produces for a new model working buffer. -/
structure Moc where
  parameter_ids : List String
  part_ids : List String
  drawable_ids : List String
  parameter_min : List Rat
  parameter_max : List Rat
  parameter_default : List Rat
  drawable_masks : List (List Int)
  initDrawables : List DrawableState
deriving DecidableEq

/-- Whether any drawable has a non-empty mask list
(`Moc::is_masked` in `cubism-core/src/moc.rs`). -/
def Moc.is_masked (moc : Moc) : Bool :=
  moc.drawable_masks.any (fun m => !m.isEmpty)

/-- A model instance (`Model` in `cubism-core/src/model.rs`): a shared
reference to its moc plus its own mutable working state (parameter values,
part opacities, derived drawable state). -/
structure Model where
  moc : Moc
  parameter_values : List Rat
  part_opacities : List Rat
  drawables : List DrawableState
deriving DecidableEq

/-- Modelled from the spec: the opaque native evaluation routine backing
`csmUpdateModel` — it recomputes every derived per-drawable quantity from the
current parameter values and part opacities (the previous drawable state is
available so the routine can set the `...Changed` flags of its output). -/
structure NativeCore where
  eval : List Rat → List Rat → List DrawableState → List DrawableState

/-- Modelled from the spec: `csmUpdateModel` replaces the derived drawable
state with the native evaluation of the current parameter values and part
opacities; parameter values and part opacities are untouched. -/
def csmUpdateModel (nc : NativeCore) (m : Model) : Model :=
  { m with drawables := nc.eval m.parameter_values m.part_opacities m.drawables }

/-- Modelled from the spec: `csmResetDrawableDynamicFlags` clears the dynamic
change flags of every drawable. -/
def csmResetDrawableDynamicFlags (m : Model) : Model :=
  { m with drawables := m.drawables.map (fun d => { d with dynamicFlags := d.dynamicFlags.resetChanged }) }

/-- `Model::update` (`cubism-core/src/model.rs:226`): calls `csmUpdateModel`
first and `csmResetDrawableDynamicFlags` second, in that source order. -/
def Model.update (nc : NativeCore) (m : Model) : Model :=
  csmResetDrawableDynamicFlags (csmUpdateModel nc m)

/-- `Model::set_parameter_value` (`cubism-core/src/model.rs:198`). -/
def Model.set_parameter_value (m : Model) (idx : Nat) (val : Rat) : Model :=
  { m with parameter_values := m.parameter_values.set idx val }

/-- `Model::set_part_opacity` (`cubism-core/src/model.rs:219`). -/
def Model.set_part_opacity (m : Model) (idx : Nat) (val : Rat) : Model :=
  { m with part_opacities := m.part_opacities.set idx val }

/-- `impl Clone for Model` (`cubism-core/src/model.rs:477`): initialize a
fresh working buffer from the shared moc (`init_new_model`), then copy only
the parameter values and the part opacities. -/
def Model.clone (m : Model) : Model :=
  { moc := m.moc
    parameter_values := m.parameter_values
    part_opacities := m.part_opacities
    drawables := m.moc.initDrawables }

/-- The per-drawable mask counts as read back from the native model memory
(`Model::drawable_mask_counts`): the lengths of the moc's mask lists. -/
def Model.drawable_mask_counts (m : Model) : List Int :=
  m.moc.drawable_masks.map (fun l => (l.length : Int))

/-- `Model::is_masked` (`cubism-core/src/model.rs:372`): literally
`self.drawable_mask_counts().iter().any(|c| *c <= 0)`. -/
def Model.is_masked (m : Model) : Bool :=
  m.drawable_mask_counts.any (fun c => decide (c ≤ 0))

/-- A concrete native evaluator that always reports a changed opacity. -/
def ncFlagging : NativeCore :=
  { eval := fun _ _ ds => ds.map (fun d => { d with dynamicFlags := { d.dynamicFlags with opacityChanged := true } }) }

/-- All-false dynamic flags except visibility. -/
def flagsVisible : DynamicFlags :=
  { isVisible := true
    visibilityChanged := false
    opacityChanged := false
    drawOrderChanged := false
    renderOrderChanged := false
    vertexPositionsChanged := false }

/-- A single plain drawable. -/
def drawable0 : DrawableState :=
  { renderOrder := 0, drawOrder := 0, opacity := 1, vertexPositions := [], dynamicFlags := flagsVisible }

/-- A moc with one drawable that is masked by drawable 0. -/
def mocMasked : Moc :=
  { parameter_ids := ["P0"]
    part_ids := ["Part0"]
    drawable_ids := ["D0"]
    parameter_min := [0]
    parameter_max := [1]
    parameter_default := [0]
    drawable_masks := [[0]]
    initDrawables := [drawable0] }

/-- A moc with one drawable that has an empty mask list. -/
def mocUnmasked : Moc :=
  { mocMasked with drawable_masks := [[]] }

/-- A model over `mocMasked`. -/
def modelMasked : Model :=
  { moc := mocMasked
    parameter_values := [0]
    part_opacities := [1]
    drawables := mocMasked.initDrawables }

/-- A model over `mocUnmasked`. -/
def modelUnmasked : Model :=
  { modelMasked with moc := mocUnmasked }

/-- Claim C1 (counterexample): `Model::update` does not leave the dynamic
flags reflecting the changes computed by that same call — the native
evaluation of this call marks an opacity change, yet after `update()` the
flag is cleared, because the source calls `csmUpdateModel` first and
`csmResetDrawableDynamicFlags` second. -/
theorem model_update_flags_counterexample :
    ((Model.update ncFlagging modelMasked).drawables.map (fun d => d.dynamicFlags))
      ≠ ((ncFlagging.eval modelMasked.parameter_values modelMasked.part_opacities modelMasked.drawables).map
          (fun d => d.dynamicFlags)) := by
  decide

/-- Claim C1 (amended): `Model::update` first recomputes every derived
per-drawable quantity via the native evaluation routine and then resets the
dynamic change flags, so after `update()` the derived quantities (opacity,
vertex positions, visibility, orders) are exactly those computed by this
call's native evaluation while every dynamic change flag is cleared;
parameter values and part opacities are untouched. -/
theorem model_update_recompute_then_reset (nc : NativeCore) (m : Model) :
    ((Model.update nc m).drawables.map
        (fun d => (d.opacity, d.vertexPositions, d.renderOrder, d.drawOrder, d.dynamicFlags.isVisible))
      = (nc.eval m.parameter_values m.part_opacities m.drawables).map
        (fun d => (d.opacity, d.vertexPositions, d.renderOrder, d.drawOrder, d.dynamicFlags.isVisible)))
    ∧ ((Model.update nc m).drawables.map
        (fun d => (d.dynamicFlags.visibilityChanged, d.dynamicFlags.opacityChanged,
                   d.dynamicFlags.drawOrderChanged, d.dynamicFlags.renderOrderChanged,
                   d.dynamicFlags.vertexPositionsChanged))
      = List.replicate (nc.eval m.parameter_values m.part_opacities m.drawables).length
          (false, false, false, false, false))
    ∧ (Model.update nc m).parameter_values = m.parameter_values
    ∧ (Model.update nc m).part_opacities = m.part_opacities := by
  refine ⟨?_, ?_, rfl, rfl⟩
  · simp only [Model.update, csmResetDrawableDynamicFlags, csmUpdateModel, List.map_map]
    rfl
  · simp only [Model.update, csmResetDrawableDynamicFlags, csmUpdateModel, List.map_map]
    induction nc.eval m.parameter_values m.part_opacities m.drawables with
    | nil => rfl
    | cons d ds ih =>
        simpa [List.replicate_succ, DynamicFlags.resetChanged] using ih

/-- Claim C3 (code bug): `Model::is_masked` is inverted. On a model whose
single drawable has a non-empty mask list the claim (and `Moc::is_masked`)
says `true` but `Model::is_masked` returns `false`; on a model whose single
drawable has an empty mask list the claim says `false` but `Model::is_masked`
returns `true`. -/
theorem model_is_masked_inverted :
    Moc.is_masked mocMasked = true
    ∧ Model.is_masked modelMasked = false
    ∧ Moc.is_masked mocUnmasked = false
    ∧ Model.is_masked modelUnmasked = true := by
  decide

/-- Claim C9: cloning a model copies the parameter values and part opacities,
keeps the same shared moc, and takes its derived drawable state from the
moc's fresh initialization — independently of the original's current drawable
state; mutating the clone's parameter values only rewrites the clone's own
copy (`(m.clone).set_parameter_value i v` has values `m.parameter_values.set
i v` while `m` itself is a distinct, untouched value). -/
theorem model_clone_semantics (m : Model) (d : List DrawableState) (i : Nat) (v : Rat) :
    (m.clone).parameter_values = m.parameter_values
    ∧ (m.clone).part_opacities = m.part_opacities
    ∧ (m.clone).moc = m.moc
    ∧ (m.clone).drawables = m.moc.initDrawables
    ∧ Model.clone { m with drawables := d } = m.clone
    ∧ ((m.clone).set_parameter_value i v).parameter_values = m.parameter_values.set i v
    ∧ (m, (m.clone).set_parameter_value i v).1.parameter_values = m.parameter_values := by
  exact ⟨rfl, rfl, rfl, rfl, rfl, rfl, rfl⟩

/-- `ExpressionBlendType` (`src/json/expression.rs`). -/
inductive ExpressionBlendType where
  | Add
  | Multiply
  | Overwrite
deriving DecidableEq

/-- An expression (`Expression` in `src/expression.rs`): a resolved list of
`(parameter index, blend type, value)` triples. -/
structure Expression where
  parameters : List (Nat × ExpressionBlendType × Rat)
deriving DecidableEq

/-- The clamp written inline in `Expression::apply`:
`weight.min(1.0).max(0.0)`. -/
def clamp01 (w : Rat) : Rat := max (min w 1) 0

/-- `Expression::apply` (`src/expression.rs:50`): clamp the weight to
`[0,1]`, then for every resolved entry rewrite the model value according to
the blend type, using the source's `mul_add` groupings (exact over `Rat`). -/
def Expression.apply (e : Expression) (model : Model) (weight : Rat) : Model :=
  let w := clamp01 weight
  e.parameters.foldl
    (fun model p =>
      match p with
      | (id, blend_type, value) =>
          let model_value := model.parameter_values.getD id 0
          model.set_parameter_value id
            (match blend_type with
             | ExpressionBlendType.Add => value * w + model_value
             | ExpressionBlendType.Multiply => model_value * ((value - 1) * w + 1)
             | ExpressionBlendType.Overwrite => value * w))
    model

/-- Claim C4: `Expression::apply` first clamps the weight to `[0,1]`
(applying at `w` equals applying at `clamp01 w`), and per resolved entry on
model value `v`, blend value `b` and weight `w` already in `[0,1]` yields:
Add `v + b*w` (the source's grouping `fma(b, w, v) = b*w + v` agrees), Multiply
`v * (1 + (b-1)*w)`, Overwrite `b*w`; at `w = 0` Add and Multiply leave the
value unchanged and Overwrite sets it to `0`. -/
theorem list_set_getD_self (l : List Rat) (i : Nat) (hi : i < l.length) :
    l.set i (l.getD i 0) = l := by
  apply List.ext_getElem?
  intro n
  by_cases h : i = n
  · subst h
    rw [List.getElem?_set_self hi, List.getD_eq_getElem?_getD, List.getElem?_eq_getElem hi]
    rfl
  · exact List.getElem?_set_ne h

theorem clamp01_idem (w : Rat) : clamp01 (clamp01 w) = clamp01 w := by
  rcases le_total w 0 with h | h
  · have : clamp01 w = 0 := by
      simp [clamp01, max_eq_right, min_le_of_left_le h]
    rw [this]
    norm_num [clamp01]
  · rcases le_total w 1 with h' | h'
    · have : clamp01 w = w := by
        simp [clamp01, min_eq_left h', max_eq_left h]
      rw [this, this]
    · have : clamp01 w = 1 := by
        simp [clamp01, min_eq_right h']
      rw [this]
      norm_num [clamp01]

theorem expression_apply_blend_laws (m : Model) (w b : Rat) (i : Nat)
    (hi : i < m.parameter_values.length) (h0 : 0 ≤ w) (h1 : w ≤ 1) :
    ((Expression.mk [(i, ExpressionBlendType.Add, b)]).apply m w).parameter_values.getD i 0
        = m.parameter_values.getD i 0 + b * w
    ∧ ((Expression.mk [(i, ExpressionBlendType.Multiply, b)]).apply m w).parameter_values.getD i 0
        = m.parameter_values.getD i 0 * (1 + (b - 1) * w)
    ∧ ((Expression.mk [(i, ExpressionBlendType.Overwrite, b)]).apply m w).parameter_values.getD i 0
        = b * w
    ∧ ((Expression.mk [(i, ExpressionBlendType.Add, b)]).apply m 0).parameter_values
        = m.parameter_values
    ∧ ((Expression.mk [(i, ExpressionBlendType.Multiply, b)]).apply m 0).parameter_values
        = m.parameter_values
    ∧ ((Expression.mk [(i, ExpressionBlendType.Overwrite, b)]).apply m 0).parameter_values.getD i 0
        = 0
    ∧ (∀ (e : Expression) (w' : Rat), e.apply m w' = e.apply m (clamp01 w')) := by
  have hcl : clamp01 w = w := by
    simp [clamp01, min_eq_left h1, max_eq_left h0]
  have hset : ∀ x : Rat, (m.parameter_values.set i x).getD i 0 = x := by
    intro x
    rw [List.getD_eq_getElem?_getD, List.getElem?_set_self hi]
    rfl
  have hcl0 : clamp01 0 = 0 := by norm_num [clamp01]
  refine ⟨?_, ?_, ?_, ?_, ?_, ?_, ?_⟩
  · simp only [Expression.apply, List.foldl, Model.set_parameter_value, hcl]
    rw [hset]
    ring
  · simp only [Expression.apply, List.foldl, Model.set_parameter_value, hcl]
    rw [hset]
    ring
  · simp only [Expression.apply, List.foldl, Model.set_parameter_value, hcl]
    rw [hset]
  · simp only [Expression.apply, List.foldl, Model.set_parameter_value, hcl0]
    show m.parameter_values.set i (b * 0 + m.parameter_values.getD i 0) = m.parameter_values
    rw [show b * 0 + m.parameter_values.getD i 0 = m.parameter_values.getD i 0 by ring]
    exact list_set_getD_self _ _ hi
  · simp only [Expression.apply, List.foldl, Model.set_parameter_value, hcl0]
    show m.parameter_values.set i (m.parameter_values.getD i 0 * ((b - 1) * 0 + 1)) = m.parameter_values
    rw [show m.parameter_values.getD i 0 * ((b - 1) * 0 + 1) = m.parameter_values.getD i 0 by ring]
    exact list_set_getD_self _ _ hi
  · simp only [Expression.apply, List.foldl, Model.set_parameter_value, hcl0]
    rw [show b * 0 = 0 by ring, hset]
  · intro e w'
    simp only [Expression.apply, clamp01_idem]

/-- Witness for `expression_apply_blend_laws` at a concrete model, index and
weight. -/
theorem expression_apply_blend_laws_witness :
    ((Expression.mk [(0, ExpressionBlendType.Add, 3)]).apply modelMasked (1/2)).parameter_values.getD 0 0
      = modelMasked.parameter_values.getD 0 0 + 3 * (1/2) := by
  exact (expression_apply_blend_laws modelMasked (1/2) 3 0 (by decide) (by norm_num) (by norm_num)).1

/-- Playback state of a motion (`Motion` in `src/motion.rs`); the parsed
curve set is irrelevant to the tick behaviour and omitted here. -/
structure Motion where
  duration : Rat
  fps : Rat
  looped : Bool
  playing : Bool
  current_time : Rat
deriving DecidableEq

/-- `Motion::tick` (`src/motion.rs:119`): advance `current_time` by
`delta_time` while playing; on reaching `duration` either wrap (looped) by
subtracting `floor(current_time / duration) * duration`, or clamp to
`duration` and stop playing. -/
def Motion.tick (mo : Motion) (delta_time : Rat) : Motion :=
  if !mo.playing then mo
  else
    let t := mo.current_time + delta_time
    if mo.duration ≤ t then
      if mo.looped then
        { mo with current_time := t - ⌊t / mo.duration⌋ * mo.duration }
      else
        { mo with current_time := mo.duration, playing := false }
    else
      { mo with current_time := t }

/-- A concrete motion: duration 2 seconds, looped, playing, at time 0. -/
def motionLoop2 : Motion :=
  { duration := 2, fps := 30, looped := true, playing := true, current_time := 0 }

/-- Claim C5: `Motion::tick(dt)` advances `current_time` by `dt` only while
playing; below `duration` nothing else changes; at or past `duration` a
looped motion wraps by `floor(t / duration) * duration` and keeps playing,
while a non-looped motion clamps to exactly `duration` and stops playing
(time preserved); in particular `duration = 2`, `dt = 3` from time `0`
lands at `1`. -/
theorem motion_tick_spec (mo : Motion) (dt : Rat) :
    (mo.playing = false → mo.tick dt = mo)
    ∧ (mo.playing = true → mo.current_time + dt < mo.duration →
        (mo.tick dt).current_time = mo.current_time + dt
        ∧ (mo.tick dt).playing = true
        ∧ (mo.tick dt).looped = mo.looped
        ∧ (mo.tick dt).duration = mo.duration)
    ∧ (mo.playing = true → mo.looped = true → mo.duration ≤ mo.current_time + dt →
        (mo.tick dt).current_time
          = (mo.current_time + dt) - ⌊(mo.current_time + dt) / mo.duration⌋ * mo.duration
        ∧ (mo.tick dt).playing = true)
    ∧ (mo.playing = true → mo.looped = false → mo.duration ≤ mo.current_time + dt →
        (mo.tick dt).current_time = mo.duration ∧ (mo.tick dt).playing = false)
    ∧ (motionLoop2.tick 3).current_time = 1 := by
  refine ⟨?_, ?_, ?_, ?_, ?_⟩
  · intro hp
    simp [Motion.tick, hp]
  · intro hp hlt
    simp [Motion.tick, hp, not_le.mpr hlt]
  · intro hp hl hge
    simp [Motion.tick, hp, hl, hge]
  · intro hp hl hge
    simp [Motion.tick, hp, hl, hge]
  · have h32 : ⌊(3 : Rat) / 2⌋ = 1 := by norm_num [Int.floor_eq_iff]
    norm_num [Motion.tick, motionLoop2, h32]

/-- Witness for `motion_tick_spec`: the looped branch at the concrete motion
`motionLoop2` ticked by `dt = 3`. -/
theorem motion_tick_spec_witness :
    (motionLoop2.tick 3).current_time
      = (motionLoop2.current_time + 3)
          - ⌊(motionLoop2.current_time + 3) / motionLoop2.duration⌋ * motionLoop2.duration
    ∧ (motionLoop2.tick 3).playing = true := by
  exact (motion_tick_spec motionLoop2 3).2.2.1 rfl rfl (by norm_num [motionLoop2])

/-- `EyeState` (`src/controller/eye_blink.rs`). -/
inductive EyeState where
  | Open
  | Closed
  | Closing
  | Opening
deriving DecidableEq

/-- `EyeBlink` (`src/controller/eye_blink.rs`). -/
structure EyeBlink where
  parameter_ids : List Nat
  current_state : EyeState
  next_cycle : Rat
  blink_interval : Rat
  closed_time : Rat
  opening_time : Rat
  closing_time : Rat
deriving DecidableEq

/-- `EyeBlink::update_parameters` (`src/controller/eye_blink.rs:88`):
subtract `delta` from the countdown, step the four-state machine (each
transition adds the next phase duration onto the decremented countdown via
`+=`), and write the computed value to every configured parameter index.
Returns the mutated controller together with the mutated model. -/
def EyeBlink.update_parameters (eb : EyeBlink) (model : Model) (delta : Rat) : EyeBlink × Model :=
  let nc := eb.next_cycle - delta
  let sv : EyeBlink × Rat :=
    match eb.current_state with
    | EyeState.Open =>
        if nc ≤ 0 then
          ({ eb with current_state := EyeState.Closing, next_cycle := nc + eb.closing_time }, 1)
        else
          ({ eb with next_cycle := nc }, 1)
    | EyeState.Closed =>
        if nc ≤ 0 then
          ({ eb with current_state := EyeState.Opening, next_cycle := nc + eb.opening_time }, 0)
        else
          ({ eb with next_cycle := nc }, 0)
    | EyeState.Opening =>
        if nc ≤ 0 then
          ({ eb with current_state := EyeState.Open, next_cycle := nc + eb.blink_interval }, 1)
        else
          ({ eb with next_cycle := nc }, (eb.opening_time - nc) / eb.opening_time)
    | EyeState.Closing =>
        if nc ≤ 0 then
          ({ eb with current_state := EyeState.Closed, next_cycle := nc + eb.closed_time }, 0)
        else
          ({ eb with next_cycle := nc }, nc / eb.closing_time)
  (sv.1, eb.parameter_ids.foldl (fun m par => m.set_parameter_value par sv.2) model)

theorem foldl_set_not_mem (ids : List Nat) (l : List Rat) (v : Rat) (i : Nat)
    (hm : i ∉ ids) :
    (ids.foldl (fun acc p => acc.set p v) l)[i]? = l[i]? := by
  induction ids generalizing l with
  | nil => rfl
  | cons p ids ih =>
      have hip : p ≠ i := by
        rintro rfl
        exact hm (List.mem_cons_self _ _)
      rw [List.foldl_cons, ih _ (fun h => hm (List.mem_cons_of_mem _ h)),
        List.getElem?_set_ne hip]

theorem foldl_set_length (ids : List Nat) (l : List Rat) (v : Rat) :
    (ids.foldl (fun acc p => acc.set p v) l).length = l.length := by
  induction ids generalizing l with
  | nil => rfl
  | cons p ids ih => rw [List.foldl_cons, ih, List.length_set]

theorem foldl_set_mem (ids : List Nat) (l : List Rat) (v : Rat) (i : Nat)
    (hi : i < l.length) (hm : i ∈ ids) :
    (ids.foldl (fun acc p => acc.set p v) l)[i]? = some v := by
  induction ids generalizing l with
  | nil => cases hm
  | cons p ids ih =>
      rw [List.foldl_cons]
      by_cases hmem : i ∈ ids
      · exact ih _ (by simpa using hi) hmem
      · rcases List.mem_cons.mp hm with h | h
        · subst h
          rw [foldl_set_not_mem ids _ v i hmem]
          exact List.getElem?_set_self (by simpa using hi)
        · exact absurd h hmem

theorem model_foldl_set (ids : List Nat) (m : Model) (v : Rat) :
    ids.foldl (fun acc p => acc.set_parameter_value p v) m
      = { m with parameter_values := ids.foldl (fun l p => l.set p v) m.parameter_values } := by
  induction ids generalizing m with
  | nil => rfl
  | cons p ids ih =>
      rw [List.foldl_cons, List.foldl_cons, ih]
      rfl

/-- The value an `EyeBlink::update_parameters` call writes to every
configured parameter, as computed by the source's match. -/
def EyeBlink.tickValue (eb : EyeBlink) (delta : Rat) : Rat :=
  let nc := eb.next_cycle - delta
  match eb.current_state with
  | EyeState.Open => 1
  | EyeState.Closed => 0
  | EyeState.Opening => if nc ≤ 0 then 1 else (eb.opening_time - nc) / eb.opening_time
  | EyeState.Closing => if nc ≤ 0 then 0 else nc / eb.closing_time

theorem eye_blink_writes (eb : EyeBlink) (model : Model) (delta : Rat) :
    (eb.update_parameters model delta).2
      = { model with
          parameter_values :=
            eb.parameter_ids.foldl (fun l p => l.set p (eb.tickValue delta)) model.parameter_values } := by
  have hval :
      (eb.update_parameters model delta).2
        = eb.parameter_ids.foldl
            (fun m par => m.set_parameter_value par (eb.tickValue delta)) model := by
    cases h : eb.current_state <;>
      simp only [EyeBlink.update_parameters, EyeBlink.tickValue, h] <;>
      by_cases hnc : eb.next_cycle - delta ≤ 0 <;>
      simp [hnc]
  rw [hval, model_foldl_set]

/-- A concrete eye-blink controller in the `Open` state, one second from
expiry, with the default timings. -/
def ebOpen : EyeBlink :=
  { parameter_ids := [0]
    current_state := EyeState.Open
    next_cycle := 1
    blink_interval := 5
    closed_time := 1/20
    opening_time := 3/20
    closing_time := 1/10 }

/-- Claim C8 (counterexample): on countdown expiry the countdown is not set
to exactly `closing_time`: ticking `ebOpen` (countdown 1) by `delta = 2`
moves the state to `Closing` but leaves the countdown at
`(1 - 2) + closing_time = -9/10`, not `closing_time = 1/10`. -/
theorem eye_blink_countdown_counterexample :
    ((ebOpen.update_parameters modelMasked 2).1).current_state = EyeState.Closing
    ∧ ((ebOpen.update_parameters modelMasked 2).1).next_cycle ≠ ebOpen.closing_time := by
  have h : (ebOpen.next_cycle - 2 : Rat) ≤ 0 := by norm_num [ebOpen]
  refine ⟨?_, ?_⟩ <;> norm_num [EyeBlink.update_parameters, ebOpen]

/-- Claim C8 (amended): each `update_parameters(model, delta)` call subtracts
`delta` from the countdown and follows the four-state cycle; on each expiry
the next phase duration is added onto the decremented countdown (the
overshoot carries over: countdown becomes `(countdown - delta) + phase`,
not exactly `phase`): Open writes 1 and on expiry becomes Closing with
countdown `+ closing_time`; Closing writes `countdown/closing_time`, on
expiry writes 0 and becomes Closed with countdown `+ closed_time`; Closed
writes 0 and on expiry becomes Opening with countdown `+ opening_time`;
Opening writes `(opening_time - countdown)/opening_time`, on expiry writes 1
and becomes Open with countdown `+ blink_interval`; the computed value is
written identically to every configured in-range parameter index and no
other parameter is touched. -/
theorem eye_blink_update_spec (eb : EyeBlink) (model : Model) (delta : Rat) :
    (eb.current_state = EyeState.Open → eb.next_cycle - delta ≤ 0 →
        ((eb.update_parameters model delta).1).current_state = EyeState.Closing
        ∧ ((eb.update_parameters model delta).1).next_cycle = (eb.next_cycle - delta) + eb.closing_time
        ∧ eb.tickValue delta = 1)
    ∧ (eb.current_state = EyeState.Open → 0 < eb.next_cycle - delta →
        ((eb.update_parameters model delta).1).current_state = EyeState.Open
        ∧ ((eb.update_parameters model delta).1).next_cycle = eb.next_cycle - delta
        ∧ eb.tickValue delta = 1)
    ∧ (eb.current_state = EyeState.Closing → eb.next_cycle - delta ≤ 0 →
        ((eb.update_parameters model delta).1).current_state = EyeState.Closed
        ∧ ((eb.update_parameters model delta).1).next_cycle = (eb.next_cycle - delta) + eb.closed_time
        ∧ eb.tickValue delta = 0)
    ∧ (eb.current_state = EyeState.Closing → 0 < eb.next_cycle - delta →
        ((eb.update_parameters model delta).1).current_state = EyeState.Closing
        ∧ ((eb.update_parameters model delta).1).next_cycle = eb.next_cycle - delta
        ∧ eb.tickValue delta = (eb.next_cycle - delta) / eb.closing_time)
    ∧ (eb.current_state = EyeState.Closed → eb.next_cycle - delta ≤ 0 →
        ((eb.update_parameters model delta).1).current_state = EyeState.Opening
        ∧ ((eb.update_parameters model delta).1).next_cycle = (eb.next_cycle - delta) + eb.opening_time
        ∧ eb.tickValue delta = 0)
    ∧ (eb.current_state = EyeState.Closed → 0 < eb.next_cycle - delta →
        ((eb.update_parameters model delta).1).current_state = EyeState.Closed
        ∧ ((eb.update_parameters model delta).1).next_cycle = eb.next_cycle - delta
        ∧ eb.tickValue delta = 0)
    ∧ (eb.current_state = EyeState.Opening → eb.next_cycle - delta ≤ 0 →
        ((eb.update_parameters model delta).1).current_state = EyeState.Open
        ∧ ((eb.update_parameters model delta).1).next_cycle = (eb.next_cycle - delta) + eb.blink_interval
        ∧ eb.tickValue delta = 1)
    ∧ (eb.current_state = EyeState.Opening → 0 < eb.next_cycle - delta →
        ((eb.update_parameters model delta).1).current_state = EyeState.Opening
        ∧ ((eb.update_parameters model delta).1).next_cycle = eb.next_cycle - delta
        ∧ eb.tickValue delta
            = (eb.opening_time - (eb.next_cycle - delta)) / eb.opening_time)
    ∧ (∀ i, i ∈ eb.parameter_ids → i < model.parameter_values.length →
        ((eb.update_parameters model delta).2).parameter_values[i]? = some (eb.tickValue delta))
    ∧ (∀ i, i ∉ eb.parameter_ids →
        ((eb.update_parameters model delta).2).parameter_values[i]?
          = model.parameter_values[i]?)
    ∧ ((eb.update_parameters model delta).2).part_opacities = model.part_opacities := by
  refine ⟨?_, ?_, ?_, ?_, ?_, ?_, ?_, ?_, ?_, ?_, ?_⟩
  · intro hs hnc
    simp [EyeBlink.update_parameters, EyeBlink.tickValue, hs, hnc]
  · intro hs hnc
    simp [EyeBlink.update_parameters, EyeBlink.tickValue, hs, not_le.mpr hnc]
  · intro hs hnc
    simp [EyeBlink.update_parameters, EyeBlink.tickValue, hs, hnc]
  · intro hs hnc
    simp [EyeBlink.update_parameters, EyeBlink.tickValue, hs, not_le.mpr hnc]
  · intro hs hnc
    simp [EyeBlink.update_parameters, EyeBlink.tickValue, hs, hnc]
  · intro hs hnc
    simp [EyeBlink.update_parameters, EyeBlink.tickValue, hs, not_le.mpr hnc]
  · intro hs hnc
    simp [EyeBlink.update_parameters, EyeBlink.tickValue, hs, hnc]
  · intro hs hnc
    simp [EyeBlink.update_parameters, EyeBlink.tickValue, hs, not_le.mpr hnc]
  · intro i hm hi
    rw [eye_blink_writes]
    exact foldl_set_mem _ _ _ _ hi hm
  · intro i hm
    rw [eye_blink_writes]
    exact foldl_set_not_mem _ _ _ _ hm
  · rw [eye_blink_writes]

/-- Witness for `eye_blink_update_spec`: the Open-state expiry branch and the
parameter write at the concrete controller `ebOpen` over `modelMasked`. -/
theorem eye_blink_update_spec_witness :
    (((ebOpen.update_parameters modelMasked 2).1).current_state = EyeState.Closing
      ∧ ((ebOpen.update_parameters modelMasked 2).1).next_cycle
          = (ebOpen.next_cycle - 2) + ebOpen.closing_time
      ∧ ebOpen.tickValue 2 = 1)
    ∧ ((ebOpen.update_parameters modelMasked 2).2).parameter_values[0]?
        = some (ebOpen.tickValue 2) := by
  exact ⟨(eye_blink_update_spec ebOpen modelMasked 2).1 rfl (by norm_num [ebOpen]),
    (eye_blink_update_spec ebOpen modelMasked 2).2.2.2.2.2.2.2.2.1 0 (by decide) (by decide)⟩

/-- `UserModel` (`src/model.rs`). The controller slots (`Box<dyn
Controller>`) are abstracted by a type `C` of controller states together with
a dispatch function passed to `update`; the expressions map is an
association list. The hidden parameter snapshot only ever holds copies of
the model's parameter values, so the `copy_from_slice` calls of the source
(which require equal lengths) are embedded as wholesale replacement. -/
structure UserModel (C : Type) where
  model : Model
  controllers : List C
  controllers_enabled : List Bool
  expressions : List (String × Expression)
  current_expression : Option String
  expression_weight : Rat
  parameter_snapshot : List Rat
deriving DecidableEq

/-- `UserModel::new` (`src/model.rs:34`): snapshot initialized from the
model's parameter values. -/
def UserModel.new {C : Type} (model : Model) : UserModel C :=
  { model := model
    controllers := []
    controllers_enabled := []
    expressions := []
    current_expression := none
    expression_weight := 1
    parameter_snapshot := model.parameter_values }

/-- `UserModel::save_parameters` (`src/model.rs:101`): copy the model's
current parameter values into the hidden snapshot. -/
def UserModel.save_parameters {C : Type} (um : UserModel C) : UserModel C :=
  { um with parameter_snapshot := um.model.parameter_values }

/-- `UserModel::load_parameters` (`src/model.rs:108`): copy the hidden
snapshot into the model's parameter values. -/
def UserModel.load_parameters {C : Type} (um : UserModel C) : UserModel C :=
  { um with model := { um.model with parameter_values := um.parameter_snapshot } }

/-- Lines 182–186 of `src/model.rs`: apply the current expression, if one is
set and still present in the expressions map. -/
def UserModel.apply_expression {C : Type} (um : UserModel C) : UserModel C :=
  match um.current_expression with
  | some name =>
      match um.expressions.lookup name with
      | some e => { um with model := e.apply um.model um.expression_weight }
      | none => um
  | none => um

/-- The ascending indices of the set bits of a `FixedBitSet`
(`controllers_enabled.ones()`). -/
def ones (bits : List Bool) : List Nat :=
  (List.range bits.length).filter (fun i => bits.getD i false)

/-- Lines 187–189 of `src/model.rs`: run the controller in every enabled
slot, in ascending slot order, threading the model and each controller's own
state (`run` is the dynamic dispatch of `Controller::update_parameters`). -/
def run_enabled_controllers {C : Type} (run : C → Model → Rat → C × Model)
    (cs : List C) (en : List Bool) (model : Model) (delta : Rat) : List C × Model :=
  (ones en).foldl
    (fun acc i =>
      match acc.1.get? i with
      | some c =>
          let r := run c acc.2 delta
          (acc.1.set i r.1, r.2)
      | none => acc)
    (cs, model)

/-- `UserModel::update` (`src/model.rs:178`): `load_parameters`, then
`save_parameters`, then the current expression, then the enabled
controllers, then `Model::update`. -/
def UserModel.update {C : Type} (nc : NativeCore) (run : C → Model → Rat → C × Model)
    (um : UserModel C) (delta : Rat) : UserModel C :=
  let um2 := (um.load_parameters).save_parameters
  let um3 := um2.apply_expression
  let r := run_enabled_controllers run um3.controllers um3.controllers_enabled um3.model delta
  let um4 := { um3 with controllers := r.1, model := r.2 }
  { um4 with model := Model.update nc um4.model }

theorem apply_expression_snapshot {C : Type} (um : UserModel C) :
    (um.apply_expression).parameter_snapshot = um.parameter_snapshot := by
  rcases hc : um.current_expression with _ | name
  · simp [UserModel.apply_expression, hc]
  · rcases h : um.expressions.lookup name with _ | e
    · simp [UserModel.apply_expression, hc, h]
    · simp [UserModel.apply_expression, hc, h]

/-- Claim C10: `UserModel::update` begins by overwriting the model's
parameter values with the stored snapshot (`load_parameters` immediately
followed by `save_parameters`) before the expression and the controllers
run: the whole update is insensitive to whatever parameter values the model
held on entry, and the snapshot itself is unchanged by the call — so
parameter values written by the expression or the controllers during one
update are discarded as the base of the next update unless the caller
explicitly saves them in between. -/
theorem user_model_update_discards_writes {C : Type} (nc : NativeCore)
    (run : C → Model → Rat → C × Model) (um : UserModel C) (delta : Rat) (vs : List Rat) :
    UserModel.update nc run { um with model := { um.model with parameter_values := vs } } delta
      = UserModel.update nc run um delta
    ∧ (UserModel.update nc run um delta).parameter_snapshot = um.parameter_snapshot
    ∧ ((um.load_parameters).save_parameters).model.parameter_values = um.parameter_snapshot := by
  refine ⟨rfl, ?_, rfl⟩
  show (((um.load_parameters).save_parameters).apply_expression).parameter_snapshot
    = um.parameter_snapshot
  rw [apply_expression_snapshot]
  rfl

/-- A concrete `UserModel` (no controllers, no expressions) over
`modelMasked`, whose single part has opacity 1. -/
def userModelEx : UserModel Unit :=
  UserModel.new modelMasked

/-- Claim C2 (counterexample): `save_parameters()` then mutation then
`load_parameters()` does not restore the part opacities: starting from part
opacity `1`, saving, setting the part opacity to `3` and the parameter to
`7`, then loading restores the parameter (`0`) but leaves the part opacity
at `3`. -/
theorem save_load_part_opacity_counterexample :
    ((({ userModelEx.save_parameters with
        model := ((userModelEx.save_parameters).model.set_parameter_value 0 7).set_part_opacity 0 3
      } : UserModel Unit).load_parameters).model.part_opacities
        ≠ userModelEx.model.part_opacities)
    ∧ ((({ userModelEx.save_parameters with
        model := ((userModelEx.save_parameters).model.set_parameter_value 0 7).set_part_opacity 0 3
      } : UserModel Unit).load_parameters).model.parameter_values
        = userModelEx.model.parameter_values) := by
  decide

/-- Claim C2 (amended): `save_parameters()` then mutation then
`load_parameters()` restores exactly (identically, hence bit-for-bit) the
parameter values held at the `save_parameters()` call; the part opacities
are not covered by the snapshot and keep their mutated values. -/
theorem save_load_roundtrip {C : Type} (um : UserModel C) (i j : Nat) (v o : Rat) :
    (um.save_parameters).parameter_snapshot = um.model.parameter_values
    ∧ (({ um.save_parameters with
          model := ((um.save_parameters).model.set_parameter_value i v).set_part_opacity j o
        } : UserModel C).load_parameters).model.parameter_values
        = um.model.parameter_values
    ∧ (({ um.save_parameters with
          model := ((um.save_parameters).model.set_parameter_value i v).set_part_opacity j o
        } : UserModel C).load_parameters).model.part_opacities
        = um.model.part_opacities.set j o := by
  exact ⟨rfl, rfl, rfl⟩

/-- A `Box<dyn Controller>` entry of the `ControllerMap`
(`src/controller.rs`): its priority and the model effect of its
`update_parameters`. -/
structure DynController where
  priority : Nat
  update_parameters : Model → Rat → Model

/-- `SimpleSlab` (`src/controller.rs:28`). -/
structure SimpleSlab where
  buf : List (Option DynController)
  last_free : Nat

/-- `SimpleSlab::push` (`src/controller.rs:34`), returning the new slab and
the index handed back to the caller. -/
def SimpleSlab.push (s : SimpleSlab) (c : DynController) : SimpleSlab × Nat :=
  let len := s.buf.length
  if len ≤ s.last_free then
    ({ buf := s.buf ++ [some c], last_free := len }, len)
  else
    let ret := s.last_free
    let buf := s.buf.set s.last_free (some c)
    let lf :=
      match (buf.drop s.last_free).findIdx? (fun x => x.isNone) with
      | some pos => pos + s.last_free
      | none => len
    ({ buf := buf, last_free := lf }, ret)

/-- `SimpleSlab::take` (`src/controller.rs:53`). -/
def SimpleSlab.take (s : SimpleSlab) (idx : Nat) : SimpleSlab × Option DynController :=
  let lf := if idx < s.last_free then idx else s.last_free
  match s.buf.getD idx none with
  | some c => ({ buf := s.buf.set idx none, last_free := lf }, some c)
  | none => ({ s with last_free := lf }, none)

/-- `SimpleSlab::iter` (`src/controller.rs:70`): the occupied slots in slot
order (holes skipped). -/
def SimpleSlab.iter (s : SimpleSlab) : List DynController :=
  s.buf.filterMap id

/-- `ControllerMap` (`src/controller.rs:85`): the name map is an association
list (`FxHashMap` keyed by name), `enabled` is the `FixedBitSet`. -/
structure ControllerMap where
  controllers : SimpleSlab
  name_map : List (String × Nat)
  enabled : List Bool

/-- `ControllerMap::new` (`src/controller.rs:93`). -/
def ControllerMap.new : ControllerMap :=
  { controllers := { buf := [], last_free := 0 }, name_map := [], enabled := [] }

/-- `HashMap::insert`: store `k ↦ v`, returning the previous value under `k`
if any. -/
def mapInsert (m : List (String × Nat)) (k : String) (v : Nat) :
    List (String × Nat) × Option Nat :=
  match m.lookup k with
  | some old => ((k, v) :: m.filter (fun p => !(p.1 == k)), some old)
  | none => ((k, v) :: m, none)

/-- `ControllerMap::insert` (`src/controller.rs:107`): push into the slab,
grow and set the enabled bit, record the name, and take back the slab entry
previously registered under the same name, if any. -/
def ControllerMap.insert (cm : ControllerMap) (name : String) (c : DynController) :
    ControllerMap × Option DynController :=
  let pr := cm.controllers.push c
  let slab := pr.1
  let index := pr.2
  let enabled := if cm.enabled.length ≤ index then cm.enabled ++ [false] else cm.enabled
  let enabled := enabled.set index true
  let nm := mapInsert cm.name_map name index
  match nm.2 with
  | some old =>
      let tk := slab.take old
      ({ controllers := tk.1, name_map := nm.1, enabled := enabled }, tk.2)
  | none => ({ controllers := slab, name_map := nm.1, enabled := enabled }, none)

/-- `ControllerMap::is_enabled` (`src/controller.rs:153`). -/
def ControllerMap.is_enabled (cm : ControllerMap) (name : String) : Bool :=
  match cm.name_map.lookup name with
  | some idx => cm.enabled.getD idx false
  | none => false

/-- `ControllerMap::enabled_controllers` (`src/controller.rs:161`): zip the
hole-skipping slab iterator with the per-slot bits of the enabled bitset
(`BitIter`) and keep the controllers paired with a set bit. -/
def ControllerMap.enabled_controllers (cm : ControllerMap) : List DynController :=
  ((cm.controllers.iter).zip cm.enabled).filterMap
    (fun p => if p.2 then some p.1 else none)

/-- Ascending-priority sortedness. -/
def sortedByPriority (l : List DynController) : Prop :=
  l.Sorted (fun a b => a.priority ≤ b.priority)

/-- `ControllerMap::update_enabled_controllers` (`src/controller.rs:182`)
sorts the collected enabled controllers with `sort_unstable_by_key`, whose
library contract guarantees only a permutation sorted by the key: the
admissible invocation sequences are exactly the priority-sorted permutations
of `enabled_controllers`. -/
def UpdateEnabledRun (cm : ControllerMap) (l : List DynController) : Prop :=
  l.Perm cm.enabled_controllers ∧ sortedByPriority l

/-- The invocation loop of `update_enabled_controllers`: fold the sorted
controller sequence over the model. -/
def run_controllers (l : List DynController) (model : Model) (delta : Rat) : Model :=
  l.foldl (fun m c => c.update_parameters m delta) model

/-- A controller of priority 1 that writes parameter 0 to 1. -/
def ctrlA : DynController :=
  { priority := 1, update_parameters := fun m _ => m.set_parameter_value 0 1 }

/-- A controller of priority 2 that writes parameter 1 to 2. -/
def ctrlB : DynController :=
  { priority := 2, update_parameters := fun m _ => m.set_parameter_value 1 2 }

/-- The map obtained by registering `"a" ↦ ctrlA` and then `"b" ↦ ctrlB`. -/
def cmDouble : ControllerMap :=
  ((ControllerMap.new.insert "a" ctrlA).1.insert "b" ctrlB).1

/-- A moc with two parameters. -/
def mocTwo : Moc :=
  { parameter_ids := ["P0", "P1"]
    part_ids := []
    drawable_ids := []
    parameter_min := [0, 0]
    parameter_max := [1, 1]
    parameter_default := [0, 0]
    drawable_masks := []
    initDrawables := [] }

/-- A model with two parameters, both 0. -/
def modelTwo : Model :=
  { moc := mocTwo, parameter_values := [0, 0], part_opacities := [], drawables := [] }

/-- Claim C6 (failing input): after `insert("a", ctrlA)` then
`insert("b", ctrlB)` both names are enabled, yet the slab holds only `ctrlB`
(the second `push` reuses the slot `last_free` still points at, silently
destroying `ctrlA`), so every admissible `update_enabled_controllers` run
invokes only `ctrlB`: parameter 0 stays 0 instead of being written to 1 by
the enabled priority-1 controller `ctrlA`. -/
theorem controller_map_drops_enabled_controller :
    ControllerMap.is_enabled cmDouble "a" = true
    ∧ ControllerMap.is_enabled cmDouble "b" = true
    ∧ cmDouble.controllers.buf = [some ctrlB]
    ∧ (∀ l, UpdateEnabledRun cmDouble l →
        (run_controllers l modelTwo 1).parameter_values = [0, 2])
    ∧ ([(0 : Rat), 2] ≠ [1, 2]) := by
  have hec : cmDouble.enabled_controllers = [ctrlB] := rfl
  refine ⟨rfl, rfl, rfl, ?_, by decide⟩
  intro l hl
  have hperm : l.Perm [ctrlB] := hec ▸ hl.1
  have hl1 : l = [ctrlB] := List.perm_singleton.mp hperm
  subst hl1
  rfl

/-- Witness for `controller_map_drops_enabled_controller`: the singleton run
`[ctrlB]` is admissible and leaves parameter 0 untouched. -/
theorem controller_map_drops_enabled_controller_witness :
    (run_controllers [ctrlB] modelTwo 1).parameter_values = [0, 2] := by
  exact controller_map_drops_enabled_controller.2.2.2.1 [ctrlB]
    ⟨List.Perm.refl _, List.sorted_singleton _⟩

/-- The native moc API used by `Moc::new_moc` (`csmGetMocVersion`,
`csmGetLatestMocVersion`, `csmReviveMocInPlace`), modelled from the spec as
an opaque version reader and an opaque validating transform;
`reviveMocInPlace` is `true` iff the native call returns a non-null
pointer. -/
structure NativeMocApi where
  getMocVersion : List Nat → Nat
  latestMocVersion : Nat
  reviveMocInPlace : List Nat → Bool

/-- `MocError` (`cubism-core/src/error.rs`). -/
inductive MocError where
  | MocVersionMismatch (found : Nat)
  | InvalidMocData
deriving DecidableEq

/-- `Moc::new_moc` (`cubism-core/src/moc.rs:136`): check the blob's version
against the latest supported one, copy the bytes into fresh aligned memory,
attempt in-place revival, and classify the outcome. -/
def Moc.new_moc (api : NativeMocApi) (data : List Nat) : Except MocError (List Nat) :=
  let moc_ver := api.getMocVersion data
  if api.latestMocVersion < moc_ver then
    Except.error (MocError.MocVersionMismatch moc_ver)
  else
    let mem := data
    let revived := !(api.reviveMocInPlace mem)
    if revived then Except.error MocError.InvalidMocData
    else Except.ok mem

/-- Claim C7: moc loading fails with `MocVersionMismatch` carrying exactly
the found version iff that version exceeds the latest supported one, fails
with `InvalidMocData` iff the version check passes and revival reports
failure, succeeds otherwise, and produces no other outcome. -/
theorem moc_new_moc_error_taxonomy (api : NativeMocApi) (data : List Nat) (w : Nat) :
    ((Moc.new_moc api data = Except.error (MocError.MocVersionMismatch w))
        ↔ (w = api.getMocVersion data ∧ api.latestMocVersion < api.getMocVersion data))
    ∧ ((Moc.new_moc api data = Except.error MocError.InvalidMocData)
        ↔ (api.getMocVersion data ≤ api.latestMocVersion
            ∧ api.reviveMocInPlace data = false))
    ∧ ((Moc.new_moc api data = Except.ok data)
        ↔ (api.getMocVersion data ≤ api.latestMocVersion
            ∧ api.reviveMocInPlace data = true))
    ∧ (Moc.new_moc api data = Except.ok data
        ∨ Moc.new_moc api data
            = Except.error (MocError.MocVersionMismatch (api.getMocVersion data))
        ∨ Moc.new_moc api data = Except.error MocError.InvalidMocData) := by
  by_cases hv : api.latestMocVersion < api.getMocVersion data
  · refine ⟨?_, ?_, ?_, ?_⟩
    · simp [Moc.new_moc, hv, eq_comm]
    · simp [Moc.new_moc, hv, not_le.mpr hv]
    · simp [Moc.new_moc, hv, not_le.mpr hv]
    · simp [Moc.new_moc, hv]
  · by_cases hr : api.reviveMocInPlace data
    · refine ⟨?_, ?_, ?_, ?_⟩
      · simp [Moc.new_moc, hv, hr]
      · simp [Moc.new_moc, hv, hr]
      · simp [Moc.new_moc, hv, hr, not_lt.mp hv]
      · simp [Moc.new_moc, hv, hr]
    · refine ⟨?_, ?_, ?_, ?_⟩
      · simp [Moc.new_moc, hv, hr]
      · simp [Moc.new_moc, hv, hr, not_lt.mp hv]
      · simp [Moc.new_moc, hv, hr]
      · simp [Moc.new_moc, hv, hr]

end Cubism
